import Mathlib

/-!
Verification of the analytics engine of the `github-pr-reports` repository
against its natural-language specification.

The Python sources are shallowly embedded:
* `pr_reporter.py` / `PRReporter.get_repo_stats` — open-request aggregation
  (`getRepoStats`), persisted via `db_manager.py` / `DatabaseManager`
  (`saveStats`, `getStatsForDate`, …).
* `closed_pr_analyzer.py` / `ClosedPRAnalyzer.analyze_repo` — closed-request
  cycle-time aggregation (`analyzeRepo`).
Timestamps are integer seconds; Python's `timedelta.days` (floor division)
becomes `Int.fdiv _ 86400`; Python's exact `statistics.mean` over the sampled
values becomes rational arithmetic.
-/

namespace PRReports

/-- Arithmetic mean of a list of rationals; the embedding of Python's
`statistics.mean` (callers guard against the empty list as in the source). -/
def qmean (l : List ℚ) : ℚ := l.sum / (l.length : ℚ)

/-- Mean of a list of integer day counts, as an exact rational. -/
def intMean (l : List ℤ) : ℚ := qmean (l.map (fun a => (a : ℚ)))

/-- The square of Python's `statistics.stdev` (sample standard deviation):
`stdev l = sqrt (sampleVariance l)` with the `n - 1` denominator.  The square
is carried because the reported value itself is generally irrational. -/
def sampleVariance (l : List ℚ) : ℚ :=
  ((l.map (fun x => (x - qmean l) ^ 2)).sum) / ((l.length : ℚ) - 1)

/-- Spec-side definition: the population variance (denominator `n`), used only
to compare against the `sampleVariance` the code computes. -/
def populationVariance (l : List ℚ) : ℚ :=
  ((l.map (fun x => (x - qmean l) ^ 2)).sum) / (l.length : ℚ)

/-- The standard deviation the code reports for the sample `l` equals `c`.
The source computes `stdev(l) if len(l) > 1 else 0`; since
`stdev l = sqrt (sampleVariance l)`, over the reals that value equals `c`
iff `0 ≤ c` and `c ^ 2` equals the (guarded) variance. -/
def stdDevIs (l : List ℚ) (c : ℚ) : Prop :=
  0 ≤ c ∧ c ^ 2 = (if 1 < l.length then sampleVariance l else 0)

instance (l : List ℚ) (c : ℚ) : Decidable (stdDevIs l c) := by
  unfold stdDevIs; infer_instance

/-- `(now - created).days` in Python: floor of the elapsed seconds over one
day.  `Int.fdiv` is floor division, matching `timedelta.days`. -/
def ageDays (now createdAt : ℤ) : ℤ := (now - createdAt).fdiv 86400

/-- An open review request ("pull request") as consumed by
`PRReporter.get_repo_stats`.  `eventKinds`/`commentTimes` are `none` when the
corresponding API lookup raises (the `try/except` paths in the source). -/
structure PR where
  title : String
  htmlUrl : String
  createdAt : ℤ
  commentCount : ℕ
  labels : List String
  reviewStates : List String
  eventKinds : Option (List String)
  commentTimes : Option (List ℤ)
  lastPushAt : ℤ
  isDraft : Bool
  deriving DecidableEq, Repr

/-- `PRDetail` from `pr_reporter.py`. -/
structure PRDetail where
  title : String
  age_days : ℤ
  url : String
  deriving DecidableEq, Repr

/-- `PRStats` from `pr_reporter.py` (the dataclass actually returned; the
narrower `db_manager.PRStats` shares its first nine fields). -/
structure PRStats where
  total_prs : ℕ
  avg_age_days : ℚ
  avg_age_days_excluding_oldest : ℚ
  avg_comments : ℚ
  avg_comments_with_comments : ℚ
  approved_prs : ℕ
  oldest_pr_age : ℤ
  oldest_pr_title : String
  prs_with_zero_comments : ℕ
  reopened_prs : ℕ
  zero_comment_prs : Option (List PRDetail)
  deriving DecidableEq, Repr

/-- `any(label.name == "Ready for Review" for label in pr.labels)`. -/
def hasReadyLabel (pr : PR) : Bool := pr.labels.contains ("Ready for Review")

/-- `any(review.state == 'APPROVED' for review in reviews)`. -/
def isApproved (pr : PR) : Bool := pr.reviewStates.contains ("APPROVED")

/-- The reopened check of `get_repo_stats`: walk the timeline events and stop
at the first `'reopened'`; a failed lookup (`none`) contributes nothing. -/
def hasReopenedEvent (pr : PR) : Bool :=
  match pr.eventKinds with
  | none => false
  | some evs => evs.contains ("reopened")

/-- The running "oldest PR" tracker: starts at `(0, "")` and updates only on a
strictly greater age, exactly as the loop in `get_repo_stats` does. -/
def oldestPair (now : ℤ) (prs : List PR) : ℤ × String :=
  prs.foldl
    (fun acc pr =>
      if ageDays now pr.createdAt > acc.1 then (ageDays now pr.createdAt, pr.title) else acc)
    (0, "")

/-- Descending order on `age_days`, the key of
`sorted(zero_comment_prs, key=lambda x: x.age_days, reverse=True)`. -/
def detailGE (a b : PRDetail) : Prop := b.age_days ≤ a.age_days

instance : DecidableRel detailGE := fun a b => Int.decLe b.age_days a.age_days

instance : IsTotal PRDetail detailGE := ⟨fun a b => le_total b.age_days a.age_days⟩

instance : IsTrans PRDetail detailGE := ⟨fun _ _ _ h1 h2 => le_trans h2 h1⟩

/-- The all-zero `PRStats` built on the empty-input path of `get_repo_stats`. -/
def emptyPRStats : PRStats :=
  { total_prs := 0
    avg_age_days := 0
    avg_age_days_excluding_oldest := 0
    avg_comments := 0
    avg_comments_with_comments := 0
    approved_prs := 0
    oldest_pr_age := 0
    oldest_pr_title := ""
    prs_with_zero_comments := 0
    reopened_prs := 0
    zero_comment_prs := some [] }

/-- `PRReporter.get_repo_stats` (the live-API path), lines 131-231 of
`pr_reporter.py`.  The per-PR loop is order-independent except for the oldest
tracker, so it is rendered as maps/filters plus `oldestPair`. -/
def getRepoStats (verbose : Bool) (minAgeDays : ℤ) (now : ℤ) (prs : List PR) : PRStats :=
  if prs = [] then emptyPRStats
  else
    let ages := prs.map (fun pr => ageDays now pr.createdAt)
    let op := oldestPair now prs
    let commentsAll := prs.map (fun pr => ((pr.commentCount : ℚ)))
    let withComments :=
      (prs.filter (fun pr => !(pr.commentCount == 0))).map (fun pr => ((pr.commentCount : ℚ)))
    let zcDetails :=
      (prs.filter
          (fun pr =>
            pr.commentCount == 0 && verbose && decide (minAgeDays ≤ ageDays now pr.createdAt) &&
              hasReadyLabel pr)).map
        (fun pr => PRDetail.mk pr.title (ageDays now pr.createdAt) pr.htmlUrl)
    let avgExcl : ℚ :=
      if 1 < ages.length then
        let agesExcludingOldest := ages.filter (fun a => decide (a < op.1))
        if agesExcludingOldest = [] then 0 else intMean agesExcludingOldest
      else 0
    { total_prs := prs.length
      avg_age_days := if ages = [] then 0 else intMean ages
      avg_age_days_excluding_oldest := avgExcl
      avg_comments := if commentsAll = [] then 0 else qmean commentsAll
      avg_comments_with_comments := if withComments = [] then 0 else qmean withComments
      approved_prs := (prs.filter isApproved).length
      oldest_pr_age := op.1
      oldest_pr_title := op.2
      prs_with_zero_comments := (prs.filter (fun pr => pr.commentCount == 0)).length
      reopened_prs := (prs.filter hasReopenedEvent).length
      zero_comment_prs := if verbose then some (zcDetails.insertionSort detailGE) else none }

/-! ### The snapshot store (`db_manager.py` / `DatabaseManager`) -/

/-- One row of the `pr_stats` table.  The schema (lines 35-50 of
`db_manager.py`) has exactly these eleven columns — in particular there is no
`reopened_prs` column. -/
structure Row where
  repo_name : String
  date : String
  total_prs : ℕ
  avg_age_days : ℚ
  avg_age_days_excluding_oldest : ℚ
  avg_comments : ℚ
  avg_comments_with_comments : ℚ
  approved_prs : ℕ
  oldest_pr_age : ℤ
  oldest_pr_title : String
  prs_with_zero_comments : ℕ
  deriving DecidableEq, Repr

/-- The database: the rows of `pr_stats`.  Saves maintain the primary-key
invariant `(repo_name, date)` because `INSERT OR REPLACE` removes any
conflicting row. -/
abbrev DB := List Row

/-- The row written by `save_stats`: the nine persisted fields of the stats
object plus the key — `reopened_prs` and `zero_comment_prs` are not written. -/
def rowOfStats (repo date : String) (s : PRStats) : Row :=
  { repo_name := repo
    date := date
    total_prs := s.total_prs
    avg_age_days := s.avg_age_days
    avg_age_days_excluding_oldest := s.avg_age_days_excluding_oldest
    avg_comments := s.avg_comments
    avg_comments_with_comments := s.avg_comments_with_comments
    approved_prs := s.approved_prs
    oldest_pr_age := s.oldest_pr_age
    oldest_pr_title := s.oldest_pr_title
    prs_with_zero_comments := s.prs_with_zero_comments }

/-- `r` is the row keyed by `(repo, date)`. -/
def keyIs (repo date : String) (r : Row) : Bool := r.repo_name == repo && r.date == date

/-- `DatabaseManager.save_stats`: `INSERT OR REPLACE` keyed on
`(repo_name, date)` — any existing row with the key is dropped and the fresh
row inserted. -/
def saveStats (db : DB) (repo : String) (s : PRStats) (date : String) : DB :=
  db.filter (fun r => !(keyIs repo date r)) ++ [rowOfStats repo date s]

/-- `DatabaseManager.get_stats_for_date`: exact-match lookup. -/
def getStatsForDate (db : DB) (repo date : String) : Option Row :=
  db.find? (keyIs repo date)

/-- `ORDER BY … LIMIT 1` over a result set: fold the rows, keeping the better
of two rows according to `keep`. -/
def pick1 (keep : Row → Row → Row) (rows : List Row) : Option Row :=
  rows.foldl
    (fun acc r =>
      match acc with
      | none => some r
      | some m => some (keep m r))
    none

/-- `ORDER BY date DESC LIMIT 1` over a result set. -/
def pickLatest (rows : List Row) : Option Row :=
  pick1 (fun m r => if m.date < r.date then r else m) rows

/-- `ORDER BY date ASC LIMIT 1` over a result set. -/
def pickEarliest (rows : List Row) : Option Row :=
  pick1 (fun m r => if r.date < m.date then r else m) rows

/-- `DatabaseManager.get_stats_before_date`: the most recent row of the
repository strictly before `target` (dates are `YYYY-MM-DD` strings, ordered
lexicographically as SQLite orders TEXT). -/
def getStatsBeforeDate (db : DB) (repo target : String) : Option Row :=
  pickLatest (db.filter (fun r => r.repo_name == repo && decide (r.date < target)))

/-- `DatabaseManager.get_earliest_stats`. -/
def getEarliestStats (db : DB) (repo : String) : Option Row :=
  pickEarliest (db.filter (fun r => r.repo_name == repo))

/-- `DatabaseManager.get_latest_stats`. -/
def getLatestStats (db : DB) (repo : String) : Option Row :=
  pickLatest (db.filter (fun r => r.repo_name == repo))

/-- `PRReporter._get_comparison_stats` (lines 85-105 of `pr_reporter.py`):
`compareDays` is `self.compare_days`; Python's `if not self.compare_days`
treats both `None` and `0` as "comparison disabled".  `target` stands for the
already-formatted date `now - timedelta(days=compare_days)`. -/
def getComparisonStats (compareDays : Option ℕ) (db : DB) (repo target : String) : Option Row :=
  if compareDays = none ∨ compareDays = some 0 then none
  else
    match getStatsBeforeDate db repo target with
    | some r => some r
    | none => getEarliestStats db repo

/-- The `--dbonly` branch of `get_repo_stats` (lines 111-129): read today's
row or fail; the returned stats take `reopened_prs` from
`stats.get('reopened_prs', 0)`, and since the row dictionary produced by
`get_stats_for_date` has no such key this is always the default `0`. -/
def getRepoStatsDbonly (db : DB) (repo today : String) : Option PRStats :=
  match getStatsForDate db repo today with
  | none => none
  | some row =>
      some
        { total_prs := row.total_prs
          avg_age_days := row.avg_age_days
          avg_age_days_excluding_oldest := row.avg_age_days_excluding_oldest
          avg_comments := row.avg_comments
          avg_comments_with_comments := row.avg_comments_with_comments
          approved_prs := row.approved_prs
          oldest_pr_age := row.oldest_pr_age
          oldest_pr_title := row.oldest_pr_title
          prs_with_zero_comments := row.prs_with_zero_comments
          reopened_prs := 0
          zero_comment_prs := some [] }

/-- A recorded invocation of `save_stats`: repository, date and the row
written. -/
abbrev SaveCall := String × String × Row

/-- `get_repo_stats` on the live path together with its persistence effect:
both the empty-input branch (line 150) and the regular branch (line 229) call
`self.db.save_stats(repo_name, stats)` exactly once with the computed stats. -/
def getRepoStatsRun (verbose : Bool) (minAgeDays : ℤ) (now : ℤ) (repo date : String)
    (prs : List PR) : PRStats × List SaveCall :=
  let s := getRepoStats verbose minAgeDays now prs
  (s, [(repo, date, rowOfStats repo date s)])

/-! ### The closed-request aggregator (`closed_pr_analyzer.py`) -/

/-- A closed review request as consumed by `ClosedPRAnalyzer.analyze_repo`.
`events` is the timeline: `(kind, created_at)` pairs, `none` when
`get_issue_events()` raises. -/
structure ClosedPR where
  number : ℕ
  createdAt : ℤ
  closedAt : ℤ
  authorLogin : Option String
  events : Option (List (String × ℤ))
  deriving DecidableEq, Repr

/-- Days between closing and creation, with sub-day precision:
`(closed_at - created_at).total_seconds() / (24 * 3600)`. -/
def daysOpen (pr : ClosedPR) : ℚ := ((pr.closedAt - pr.createdAt : ℤ) : ℚ) / 86400

/-- The reopen test of `analyze_repo` (lines 68-78): some timeline event has
kind `'reopened'` and a timestamp inside `[start, end]`; a failed lookup
contributes nothing. -/
def hasInWindowReopen (startT endT : ℤ) (pr : ClosedPR) : Bool :=
  match pr.events with
  | none => false
  | some evs =>
      evs.any (fun ev => ev.1 == "reopened" && decide (startT ≤ ev.2) && decide (ev.2 ≤ endT))

/-- `author_login = pr.user.login if pr.user and pr.user.login is not None
else 'N/A'`. -/
def authorOf (pr : ClosedPR) : String := pr.authorLogin.getD ("N/A")

/-- `user_stats[author_login].append(age_days)` on a dict modelled as an
insertion-ordered association list. -/
def updateUserStats (m : List (String × List ℚ)) (k : String) (v : ℚ) :
    List (String × List ℚ) :=
  if m.any (fun p => p.1 == k) then
    m.map (fun p => if p.1 == k then (p.1, p.2 ++ [v]) else p)
  else m ++ [(k, [v])]

/-- The mutable accumulators of the `for pr in prs` loop of `analyze_repo`. -/
structure ClosedAcc where
  closed_ages : List ℚ
  user_ages : List ℚ
  user_stats : List (String × List ℚ)
  reopened : ℕ
  deriving DecidableEq, Repr

def emptyClosedAcc : ClosedAcc :=
  { closed_ages := [], user_ages := [], user_stats := [], reopened := 0 }

/-- The loop of `analyze_repo` (lines 59-96): requests arrive in descending
close-time order and the loop `break`s at the first one closed before the
window start; each in-window request contributes its fractional age, at most
one reopen, and its per-author bookkeeping. -/
def analyzeLoop (userLogin : Option String) (startT endT : ℤ) (acc : ClosedAcc) :
    List ClosedPR → ClosedAcc
  | [] => acc
  | pr :: rest =>
    if pr.closedAt < startT then acc
    else
      let age := daysOpen pr
      let acc1 :=
        { acc with
          closed_ages := acc.closed_ages ++ [age]
          reopened := acc.reopened + (if hasInWindowReopen startT endT pr then 1 else 0) }
      let acc2 :=
        if userLogin = some ("all") then
          { acc1 with user_stats := updateUserStats acc1.user_stats (authorOf pr) age }
        else
          match userLogin, pr.authorLogin with
          | some u, some a => if a = u then { acc1 with user_ages := acc1.user_ages ++ [age] } else acc1
          | _, _ => acc1
      analyzeLoop userLogin startT endT acc2 rest

/-- The result dictionary of `analyze_repo`.  `std_dev_days_sq` and
`user_std_dev_days_sq` carry the squares of the reported standard deviations
(`stdev(ages) if len(ages) > 1 else 0`), which determine them since the
reported values are the non-negative square roots. -/
structure ClosedReport where
  total_closed : ℕ
  avg_days_open : ℚ
  std_dev_days_sq : ℚ
  user_total_closed : ℕ
  user_avg_days_open : ℚ
  user_std_dev_days_sq : ℚ
  user_stats : Option (List (String × List ℚ))
  reopened_count : ℕ
  deriving DecidableEq, Repr

/-- `ClosedPRAnalyzer.analyze_repo` (lines 36-126): run the loop, then either
the all-zero report (no closed PRs in the window) or the aggregate one. -/
def analyzeRepo (userLogin : Option String) (startT endT : ℤ) (prs : List ClosedPR) :
    ClosedReport :=
  let a := analyzeLoop userLogin startT endT emptyClosedAcc prs
  if a.closed_ages = [] then
    { total_closed := 0
      avg_days_open := 0
      std_dev_days_sq := 0
      user_total_closed := 0
      user_avg_days_open := 0
      user_std_dev_days_sq := 0
      user_stats := if userLogin = some ("all") then some [] else none
      reopened_count := 0 }
  else
    { total_closed := a.closed_ages.length
      avg_days_open := qmean a.closed_ages
      std_dev_days_sq := if 1 < a.closed_ages.length then sampleVariance a.closed_ages else 0
      user_total_closed := a.user_ages.length
      user_avg_days_open := if a.user_ages = [] then 0 else qmean a.user_ages
      user_std_dev_days_sq := if 1 < a.user_ages.length then sampleVariance a.user_ages else 0
      user_stats := if userLogin = some ("all") then some a.user_stats else none
      reopened_count := a.reopened }

/-! ### The no-recent-activity staleness filter (spec §4.1) -/

/-- `any(label.name == "DO NOT MERGE" for label in pr.labels)` — the label
name used by the repository's tests. -/
def hasDoNotMergeLabel (pr : PR) : Bool := pr.labels.contains ("DO NOT MERGE")

/-- Modelled from the spec: the `lastActivityDays` of the no-recent-activity
staleness detector.  The detector itself (the `no_update_days` feature of
`PRReporter`) is exercised by `test_pr_reporter.py` but missing from this
snapshot of `src/pr_reporter.py`; per spec §4.1 it is the age in days of the
most recent comment event, falling back to the request's age when comment
retrieval fails (`none`) or yields no comments. -/
def lastActivityDays (now : ℤ) (pr : PR) : ℤ :=
  match pr.commentTimes with
  | none => ageDays now pr.createdAt
  | some [] => ageDays now pr.createdAt
  | some (t :: ts) => ageDays now (ts.foldl max t)

/-- Days since the most recent code push. -/
def pushAgeDays (now : ℤ) (pr : PR) : ℤ := ageDays now pr.lastPushAt

/-- Modelled from the spec: the no-recent-activity stale list (spec §4.1,
missing from this snapshot of `src/pr_reporter.py`).  Every open request not
carrying a "do not merge" label is reported stale iff both its last comment
activity and its last push are at least `threshold` days old. -/
def noUpdateList (threshold now : ℤ) (prs : List PR) : List PR :=
  prs.filter
    (fun pr =>
      !(hasDoNotMergeLabel pr) && decide (threshold ≤ lastActivityDays now pr) &&
        decide (threshold ≤ pushAgeDays now pr))

/-! ### Spec-side definitions for refinement claims -/

/-- Spec-side definition (spec §4.1 step 5, as quoted by the claim): with more
than one request, the mean of the ages strictly below the *maximum* age, `0`
when that subset is empty; `0` for a singleton or empty collection. -/
def specAvgAgeExcludingOldest : List ℤ → ℚ
  | [] => 0
  | a :: rest =>
    if rest = [] then 0
    else
      let m := rest.foldl max a
      let excl := (a :: rest).filter (fun x => decide (x < m))
      if excl = [] then 0 else intMean excl

/-! ### Concrete inputs used by counterexamples and witnesses -/

/-- An open request created one hour in the future of `now = 0`. -/
def prFutureA : PR :=
  { title := "future A", htmlUrl := "uA", createdAt := 3600, commentCount := 0, labels := [],
    reviewStates := [], eventKinds := some [], commentTimes := some [], lastPushAt := 0,
    isDraft := false }

/-- An open request created one day and one hour in the future of `now = 0`. -/
def prFutureB : PR :=
  { title := "future B", htmlUrl := "uB", createdAt := 90000, commentCount := 0, labels := [],
    reviewStates := [], eventKinds := some [], commentTimes := some [], lastPushAt := 0,
    isDraft := false }

/-- Five days old at `now = 432000` (five days in seconds). -/
def prAge5 : PR :=
  { title := "age five", htmlUrl := "u5", createdAt := 0, commentCount := 1, labels := [],
    reviewStates := [], eventKinds := some [], commentTimes := some [], lastPushAt := 0,
    isDraft := false }

/-- Two days old at `now = 432000`. -/
def prAge2 : PR :=
  { title := "age two", htmlUrl := "u2", createdAt := 259200, commentCount := 2, labels := [],
    reviewStates := [], eventKinds := some [], commentTimes := some [], lastPushAt := 0,
    isDraft := false }

/-- Zero comments, five days old at `now = 432000`, carrying the
"Ready for Review" label. -/
def prZeroReady : PR :=
  { title := "zero ready", htmlUrl := "uz", createdAt := 0, commentCount := 0,
    labels := ["Ready for Review"], reviewStates := [], eventKinds := some [],
    commentTimes := some [], lastPushAt := 0, isDraft := false }

/-- At `now = 1728000` (day 20): last comment and last push on day 5, so both
are fifteen days old; no "do not merge" label. -/
def prStaleOld : PR :=
  { title := "old activity", htmlUrl := "us", createdAt := 0, commentCount := 3, labels := [],
    reviewStates := [], eventKinds := some [], commentTimes := some [432000],
    lastPushAt := 432000, isDraft := false }

/-- Same ages as `prStaleOld` but labelled "DO NOT MERGE". -/
def prStaleDNM : PR :=
  { title := "do not merge candidate", htmlUrl := "ud", createdAt := 0, commentCount := 3,
    labels := ["DO NOT MERGE"], reviewStates := [], eventKinds := some [],
    commentTimes := some [432000], lastPushAt := 432000, isDraft := false }

/-- Closed after eight full days. -/
def cprClosed8 : ClosedPR :=
  { number := 1, createdAt := 0, closedAt := 691200, authorLogin := none, events := some [] }

/-- Closed after four full days. -/
def cprClosed4 : ClosedPR :=
  { number := 2, createdAt := 0, closedAt := 345600, authorLogin := none, events := some [] }

/-- A closed request with two in-window "reopened" timeline events. -/
def cprTwoReopens : ClosedPR :=
  { number := 3, createdAt := 0, closedAt := 86400, authorLogin := none,
    events := some [("reopened", 10), ("reopened", 20)] }

/-- A stored snapshot row for repository `repo1`. -/
def rowRepo1 : Row :=
  { repo_name := "repo1", date := "2025-01-01", total_prs := 1, avg_age_days := 0,
    avg_age_days_excluding_oldest := 0, avg_comments := 0, avg_comments_with_comments := 0,
    approved_prs := 0, oldest_pr_age := 0, oldest_pr_title := "", prs_with_zero_comments := 0 }

/-! ## Helper lemmas -/

theorem find?_filter_not_append (p : Row → Bool) (l1 l2 : List Row) :
    ((l1.filter (fun r => !(p r))) ++ l2).find? p = l2.find? p := by
  induction l1 with
  | nil => simp
  | cons a l ih =>
    by_cases hp : p a = true
    · simp [List.filter_cons, hp, ih]
    · have hpa : p a = false := by simp [hp]
      simp [List.filter_cons, hpa, List.find?_cons, ih]

theorem getStatsForDate_save (db : DB) (repo date : String) (s : PRStats) :
    getStatsForDate (saveStats db repo s date) repo date = some (rowOfStats repo date s) := by
  unfold getStatsForDate saveStats
  rw [find?_filter_not_append]
  simp [List.find?_cons, keyIs, rowOfStats]

theorem filter_key_save (db : DB) (repo date : String) (s : PRStats) :
    (saveStats db repo s date).filter (keyIs repo date) = [rowOfStats repo date s] := by
  unfold saveStats
  rw [List.filter_append]
  have h1 : (db.filter (fun r => !(keyIs repo date r))).filter (keyIs repo date) = [] := by
    rw [List.filter_filter]
    apply List.filter_eq_nil_iff.2
    intro a _
    cases keyIs repo date a <;> simp
  have h2 : ([rowOfStats repo date s]).filter (keyIs repo date) = [rowOfStats repo date s] := by
    simp [keyIs, rowOfStats]
  rw [h1, h2, List.nil_append]

/-! ## Claims -/

/-- C4: a `save_stats` followed by `get_stats_for_date` for the same
repository and day returns the row just written, whose fields are the saved
values; a second save for the same key replaces the entire row — the store
then holds exactly the second row under that key, with no field of the first
surviving. -/
theorem save_roundtrip_and_full_overwrite :
    ∀ (db : DB) (repo date : String) (s1 s2 : PRStats),
      getStatsForDate (saveStats db repo s1 date) repo date = some (rowOfStats repo date s1) ∧
      rowOfStats repo date s1 =
        { repo_name := repo
          date := date
          total_prs := s1.total_prs
          avg_age_days := s1.avg_age_days
          avg_age_days_excluding_oldest := s1.avg_age_days_excluding_oldest
          avg_comments := s1.avg_comments
          avg_comments_with_comments := s1.avg_comments_with_comments
          approved_prs := s1.approved_prs
          oldest_pr_age := s1.oldest_pr_age
          oldest_pr_title := s1.oldest_pr_title
          prs_with_zero_comments := s1.prs_with_zero_comments } ∧
      getStatsForDate (saveStats (saveStats db repo s1 date) repo s2 date) repo date =
        some (rowOfStats repo date s2) ∧
      (saveStats (saveStats db repo s1 date) repo s2 date).filter (keyIs repo date) =
        [rowOfStats repo date s2] := by
  intro db repo date s1 s2
  exact ⟨getStatsForDate_save db repo date s1, rfl,
    getStatsForDate_save (saveStats db repo s1 date) repo date s2,
    filter_key_save (saveStats db repo s1 date) repo date s2⟩

/-- C10: `save_stats` writes every snapshot field except `reopened_prs` (the
table has no such column), so whatever `reopened_prs` the aggregation computed
and returned in memory, the `--dbonly` read of the saved snapshot reports
every other field as saved and `reopened_prs` as `0`. -/
theorem reopened_prs_not_persisted :
    ∀ (db : DB) (repo date : String) (s : PRStats),
      getRepoStatsDbonly (saveStats db repo s date) repo date =
        some
          { total_prs := s.total_prs
            avg_age_days := s.avg_age_days
            avg_age_days_excluding_oldest := s.avg_age_days_excluding_oldest
            avg_comments := s.avg_comments
            avg_comments_with_comments := s.avg_comments_with_comments
            approved_prs := s.approved_prs
            oldest_pr_age := s.oldest_pr_age
            oldest_pr_title := s.oldest_pr_title
            prs_with_zero_comments := s.prs_with_zero_comments
            reopened_prs := 0
            zero_comment_prs := some [] } := by
  intro db repo date s
  unfold getRepoStatsDbonly
  rw [getStatsForDate_save]
  rfl

/-- C5: on an empty collection of open requests the aggregation produces the
all-zero snapshot (every numeric field `0`, empty `oldest_pr_title`) and still
invokes `save_stats` exactly once, with exactly that snapshot. -/
theorem empty_input_zero_snapshot_still_saved :
    ∀ (verbose : Bool) (minAgeDays now : ℤ) (repo date : String),
      getRepoStatsRun verbose minAgeDays now repo date [] =
        (emptyPRStats, [(repo, date, rowOfStats repo date emptyPRStats)]) ∧
      emptyPRStats.total_prs = 0 ∧
      emptyPRStats.avg_age_days = 0 ∧
      emptyPRStats.avg_age_days_excluding_oldest = 0 ∧
      emptyPRStats.avg_comments = 0 ∧
      emptyPRStats.avg_comments_with_comments = 0 ∧
      emptyPRStats.approved_prs = 0 ∧
      emptyPRStats.oldest_pr_age = 0 ∧
      emptyPRStats.oldest_pr_title = "" ∧
      emptyPRStats.prs_with_zero_comments = 0 ∧
      emptyPRStats.reopened_prs = 0 := by
  intro verbose minAgeDays now repo date
  refine ⟨?_, rfl, rfl, rfl, rfl, rfl, rfl, rfl, rfl, rfl, rfl⟩
  unfold getRepoStatsRun getRepoStats
  rw [if_pos rfl]

theorem pick1_foldl_ne_none (keep : Row → Row → Row) :
    ∀ (rows : List Row) (m : Row),
      rows.foldl
          (fun acc r =>
            match acc with
            | none => some r
            | some m => some (keep m r))
          (some m) ≠ none := by
  intro rows
  induction rows with
  | nil => intro m h; exact Option.noConfusion h
  | cons r rest ih => intro m; exact ih (keep m r)

theorem pick1_eq_none_iff (keep : Row → Row → Row) (rows : List Row) :
    pick1 keep rows = none ↔ rows = [] := by
  cases rows with
  | nil => simp [pick1]
  | cons r rest =>
    constructor
    · intro h
      exact absurd h (pick1_foldl_ne_none keep rest r)
    · intro h
      exact List.noConfusion h

theorem getEarliestStats_eq_none_iff (db : DB) (repo : String) :
    getEarliestStats db repo = none ↔ db.filter (fun r => r.repo_name == repo) = [] := by
  unfold getEarliestStats pickEarliest
  exact pick1_eq_none_iff _ _

/-- C8 counterexample: with `--compare 0` (a value the CLI accepts), Python's
`if not self.compare_days` treats the comparison as disabled, so
`_get_comparison_stats` returns absent even though the store does hold a row
for the repository — refuting "the overall result is absent iff the store
holds no rows at all". -/
theorem comparison_absent_despite_rows_when_zero_days :
    getComparisonStats (some 0) [rowRepo1] ("repo1") ("2025-02-01") = none ∧
      List.filter (fun r => r.repo_name == "repo1") [rowRepo1] = [rowRepo1] := by
  constructor
  · rfl
  · simp [rowRepo1]

/-- C8 (amended): provided the configured days-ago value is nonzero (so the
comparison is actually enabled), `_get_comparison_stats` looks up the most
recent snapshot strictly before the target date, falls back to the earliest
snapshot when none exists, and returns absent iff the store holds no rows at
all for the repository. -/
theorem comparison_fallback_absent_iff_no_history :
    ∀ (d : ℕ) (db : DB) (repo target : String), 0 < d →
      (getComparisonStats (some d) db repo target = none ↔
        db.filter (fun r => r.repo_name == repo) = []) := by
  intro d db repo target hd
  unfold getComparisonStats
  rw [if_neg (by simp; omega)]
  constructor
  · intro h
    cases hb : getStatsBeforeDate db repo target with
    | some r => rw [hb] at h; exact Option.noConfusion h
    | none =>
      rw [hb] at h
      exact (getEarliestStats_eq_none_iff db repo).1 h
  · intro h
    have hb : getStatsBeforeDate db repo target = none := by
      unfold getStatsBeforeDate pickLatest
      rw [pick1_eq_none_iff]
      apply List.filter_eq_nil_iff.2
      intro a ha
      have := List.filter_eq_nil_iff.1 h a ha
      simp only [Bool.and_eq_true, not_and] at this ⊢
      intro hrepo
      exact absurd hrepo this
    rw [hb]
    exact (getEarliestStats_eq_none_iff db repo).2 h

/-- C8 witness: at a concrete nonzero days-ago value and empty store, the
amended theorem yields an absent comparison. -/
theorem comparison_fallback_witness :
    getComparisonStats (some 7) [] ("repo1") ("2025-02-01") = none :=
  (comparison_fallback_absent_iff_no_history 7 [] ("repo1") ("2025-02-01")
    (by norm_num)).mpr rfl

/-- C9 counterexample: a `createdAt` one hour in the future of `now = 0`
yields `ageDays = -1`, refuting "ageDays >= 0 for every input, including a
createdAt in the future" — Python's `timedelta.days` floors toward negative
infinity and the code never clamps it. -/
theorem age_days_negative_for_future_created_at :
    ageDays 0 3600 = -1 ∧ ¬(0 ≤ ageDays 0 3600) := by
  constructor
  · decide
  · decide

/-- C9 (amended): `ageDays` is the floor of the elapsed seconds over one day
(whole days, rounding toward negative infinity), and it is non-negative
whenever `createdAt ≤ now`; a `createdAt` in the future can make it
negative. -/
theorem age_days_is_floor_and_nonneg_for_past :
    ∀ now createdAt : ℤ,
      (createdAt ≤ now → 0 ≤ ageDays now createdAt) ∧
      86400 * ageDays now createdAt ≤ now - createdAt ∧
      now - createdAt < 86400 * ageDays now createdAt + 86400 := by
  intro now createdAt
  unfold ageDays
  rw [Int.fdiv_eq_ediv _ (by norm_num)]
  refine ⟨fun h => ?_, ?_, ?_⟩ <;> omega

/-- C9 witness: three days after creation the age is non-negative (indeed the
floor bounds pin it at `3`). -/
theorem age_days_nonneg_witness : 0 ≤ ageDays 259200 0 :=
  (age_days_is_floor_and_nonneg_for_past 259200 0).1 (by decide)

/-- C1: in the no-recent-activity stale list (modelled from spec §4.1, this
feature being exercised by the tests but missing from this snapshot of
`src/pr_reporter.py`), a request carrying the "do not merge" label never
appears regardless of comment or push age, and a request without it appears
iff both its last comment activity (with the fallback to creation age) and
its last push are at least `threshold` days old. -/
theorem no_update_stale_list_membership :
    ∀ (threshold now : ℤ) (prs : List PR) (pr : PR), pr ∈ prs →
      (hasDoNotMergeLabel pr = true → pr ∉ noUpdateList threshold now prs) ∧
      (hasDoNotMergeLabel pr = false →
        (pr ∈ noUpdateList threshold now prs ↔
          threshold ≤ lastActivityDays now pr ∧ threshold ≤ pushAgeDays now pr)) := by
  intro threshold now prs pr hmem
  constructor
  · intro hdnm hin
    have h := (List.mem_filter.1 hin).2
    simp [hdnm] at h
  · intro hdnm
    unfold noUpdateList
    rw [List.mem_filter]
    simp [hmem, hdnm]

/-- C1 witness: with threshold ten days at day twenty, the unlabelled request
whose comment and push are fifteen days old is in the list, and the
"DO NOT MERGE" request with the same ages is not. -/
theorem no_update_stale_list_witness :
    prStaleOld ∈ noUpdateList 10 1728000 [prStaleOld, prStaleDNM] ∧
      prStaleDNM ∉ noUpdateList 10 1728000 [prStaleOld, prStaleDNM] := by
  constructor
  · exact ((no_update_stale_list_membership 10 1728000 [prStaleOld, prStaleDNM] prStaleOld
      (by decide)).2 (by decide)).mpr (by decide)
  · exact (no_update_stale_list_membership 10 1728000 [prStaleOld, prStaleDNM] prStaleDNM
      (by decide)).1 (by decide)

theorem analyzeLoop_reopened (u : Option String) (startT endT : ℤ) :
    ∀ (prs : List ClosedPR) (acc : ClosedAcc),
      (analyzeLoop u startT endT acc prs).reopened =
        acc.reopened +
          (prs.takeWhile (fun pr => !decide (pr.closedAt < startT))).countP
            (fun pr => hasInWindowReopen startT endT pr) := by
  intro prs
  induction prs with
  | nil => intro acc; simp [analyzeLoop]
  | cons pr rest ih =>
    intro acc
    by_cases hcl : pr.closedAt < startT
    · rw [List.takeWhile_cons, if_neg (by simp [hcl])]
      simp [analyzeLoop, hcl]
    · rw [List.takeWhile_cons, if_pos (by simp [hcl])]
      simp only [analyzeLoop]
      rw [if_neg hcl, ih, List.countP_cons]
      by_cases hr : hasInWindowReopen startT endT pr = true <;>
        split <;> (try split) <;> (try split) <;> simp [hr] <;> omega

theorem analyzeLoop_closed_ages (u : Option String) (startT endT : ℤ) :
    ∀ (prs : List ClosedPR) (acc : ClosedAcc),
      (analyzeLoop u startT endT acc prs).closed_ages =
        acc.closed_ages ++
          (prs.takeWhile (fun pr => !decide (pr.closedAt < startT))).map daysOpen := by
  intro prs
  induction prs with
  | nil => intro acc; simp [analyzeLoop]
  | cons pr rest ih =>
    intro acc
    by_cases hcl : pr.closedAt < startT
    · rw [List.takeWhile_cons, if_neg (by simp [hcl])]
      simp [analyzeLoop, hcl]
    · rw [List.takeWhile_cons, if_pos (by simp [hcl])]
      simp only [analyzeLoop]
      rw [if_neg hcl, ih, List.map_cons]
      split <;> (try split) <;> (try split) <;> simp

/-- C7: in the closed-request aggregation every in-window closed request
contributes at most one to `reopened_count` — it is counted exactly when at
least one of its timeline events is a `'reopened'` event timestamped inside
the observation window (so `reopened_count` is the number of such requests in
the scanned prefix) — and, concretely, a request with two in-window
`'reopened'` events contributes exactly `1`. -/
theorem reopened_count_once_per_request :
    (∀ (u : Option String) (startT endT : ℤ) (prs : List ClosedPR),
        (analyzeRepo u startT endT prs).reopened_count =
          (prs.takeWhile (fun pr => !decide (pr.closedAt < startT))).countP
            (fun pr => hasInWindowReopen startT endT pr)) ∧
      (analyzeRepo none 0 1000000 [cprTwoReopens]).reopened_count = 1 := by
  constructor
  · intro u startT endT prs
    have hre := analyzeLoop_reopened u startT endT prs emptyClosedAcc
    have hca := analyzeLoop_closed_ages u startT endT prs emptyClosedAcc
    simp only [emptyClosedAcc, List.nil_append, Nat.zero_add] at hre hca
    simp only [analyzeRepo]
    by_cases hempty : (analyzeLoop u startT endT emptyClosedAcc prs).closed_ages = []
    · rw [if_pos (by simp only [emptyClosedAcc] at hempty ⊢; exact hempty)]
      have h2 : (prs.takeWhile (fun pr => !decide (pr.closedAt < startT))).map daysOpen = [] := by
        rw [← hca]
        simpa [emptyClosedAcc] using hempty
      rw [List.map_eq_nil_iff.1 h2]
      rfl
    · rw [if_neg (by simp only [emptyClosedAcc] at hempty ⊢; exact hempty)]
      exact hre
  · decide

theorem analyzeRepo_8_4_stddev_sq :
    (analyzeRepo none 0 1000000 [cprClosed8, cprClosed4]).std_dev_days_sq =
      sampleVariance [8, 4] := by
  have h8 : daysOpen cprClosed8 = 8 := by norm_num [daysOpen, cprClosed8]
  have h4 : daysOpen cprClosed4 = 4 := by norm_num [daysOpen, cprClosed4]
  have htw :
      ([cprClosed8, cprClosed4].takeWhile (fun pr => !decide (pr.closedAt < (0 : ℤ)))) =
        [cprClosed8, cprClosed4] := by decide
  have hca := analyzeLoop_closed_ages none 0 1000000 [cprClosed8, cprClosed4] emptyClosedAcc
  rw [htw] at hca
  have hca2 :
      (analyzeLoop none 0 1000000 emptyClosedAcc [cprClosed8, cprClosed4]).closed_ages =
        [8, 4] := by
    rw [hca]
    simp [emptyClosedAcc, h8, h4]
  simp only [analyzeRepo, hca2]
  rw [if_neg (by simp)]
  simp

/-- C3 counterexample: on the two closed requests open for four and eight
days, the reported standard deviation squared is `8`, not `2 ^ 2 = 4` — the
code's `statistics.stdev` is the sample deviation, so `stdev [4, 8] = √8 ≈
2.83`, refuting the claimed value `2.0` (which is the population figure). -/
theorem stddev_of_4_and_8_not_two :
    (analyzeRepo none 0 1000000 [cprClosed8, cprClosed4]).std_dev_days_sq = 8 ∧
      ((2 : ℚ)) ^ 2 ≠ 8 := by
  constructor
  · rw [analyzeRepo_8_4_stddev_sq]
    norm_num [sampleVariance, qmean]
  · norm_num

/-- C3 (amended): wherever a standard deviation is reported it is the sample
standard deviation (`n - 1` denominator), `0` for fewer than two values; for
the two values `[4, 8]` the reported deviation is `√8 = 2√2 ≈ 2.83`
(`sampleVariance = 8`), while `2.0` corresponds to the population variance
`4`. -/
theorem sample_stddev_semantics :
    (∀ (l : List ℚ) (c : ℚ), l.length ≤ 1 → (stdDevIs l c ↔ c = 0)) ∧
      (analyzeRepo none 0 1000000 [cprClosed8, cprClosed4]).std_dev_days_sq =
        sampleVariance [8, 4] ∧
      sampleVariance [8, 4] = 8 ∧
      populationVariance [8, 4] = 4 := by
  refine ⟨?_, analyzeRepo_8_4_stddev_sq, ?_, ?_⟩
  · intro l c h
    unfold stdDevIs
    rw [if_neg (by omega)]
    constructor
    · rintro ⟨hc, h2⟩
      exact (pow_eq_zero_iff (two_ne_zero)).1 h2
    · rintro rfl
      exact ⟨le_refl 0, by norm_num⟩
  · norm_num [sampleVariance, qmean]
  · norm_num [populationVariance, qmean]

/-- C3 witness: a single-element sample reports standard deviation `0`. -/
theorem sample_stddev_semantics_witness : stdDevIs [(5 : ℚ)] 0 :=
  (sample_stddev_semantics.1 [5] 0 (by norm_num)).mpr rfl

/-- C6: every open request with zero comments is counted in
`prs_with_zero_comments`, but an entry appears in the zero-comment detail
list only for a request whose age reaches the configured minimum AND that
carries the "Ready for Review" label; the detail list is sorted by descending
age. -/
theorem zero_comment_filter :
    ∀ (minAgeDays now : ℤ) (prs : List PR),
      (getRepoStats true minAgeDays now prs).prs_with_zero_comments =
        (prs.filter (fun pr => pr.commentCount == 0)).length ∧
      ∀ zs, (getRepoStats true minAgeDays now prs).zero_comment_prs = some zs →
        (∀ d ∈ zs, ∃ pr, pr ∈ prs ∧ pr.commentCount = 0 ∧
          minAgeDays ≤ ageDays now pr.createdAt ∧ hasReadyLabel pr = true ∧
          d = PRDetail.mk pr.title (ageDays now pr.createdAt) pr.htmlUrl) ∧
        List.Sorted detailGE zs := by
  intro minAgeDays now prs
  by_cases hprs : prs = []
  · subst hprs
    refine ⟨rfl, ?_⟩
    intro zs hzs
    have hz : zs = [] := by
      simp [getRepoStats, emptyPRStats] at hzs
      exact hzs
    subst hz
    exact ⟨by simp, List.sorted_nil⟩
  · unfold getRepoStats
    rw [if_neg hprs]
    refine ⟨rfl, ?_⟩
    intro zs hzs
    simp only [if_true, Option.some.injEq] at hzs
    subst hzs
    constructor
    · intro d hd
      rw [List.mem_insertionSort] at hd
      obtain ⟨pr, hpr, hd⟩ := List.mem_map.1 hd
      have hf := List.mem_filter.1 hpr
      have hcond := hf.2
      simp only [Bool.and_eq_true, beq_iff_eq, decide_eq_true_eq] at hcond
      exact ⟨pr, hf.1, hcond.1.1.1, hcond.1.2, hcond.2, hd.symm⟩
    · exact List.sorted_insertionSort detailGE _

/-- C6 witness: a zero-comment, five-day-old, "Ready for Review" request with
minimum age three produces a (sorted) singleton detail list. -/
theorem zero_comment_filter_witness :
    List.Sorted detailGE [PRDetail.mk ("zero ready") 5 ("uz")] :=
  ((zero_comment_filter 3 432000 [prZeroReady]).2 [PRDetail.mk ("zero ready") 5 ("uz")]
    (by decide)).2

theorem oldestPair_fold_fst (now : ℤ) :
    ∀ (prs : List PR) (acc : ℤ × String),
      (prs.foldl
          (fun acc pr =>
            if ageDays now pr.createdAt > acc.1 then (ageDays now pr.createdAt, pr.title)
            else acc)
          acc).1 =
        (prs.map (fun pr => ageDays now pr.createdAt)).foldl max acc.1 := by
  intro prs
  induction prs with
  | nil => intro acc; rfl
  | cons pr rest ih =>
    intro acc
    rw [List.map_cons, List.foldl_cons, List.foldl_cons, ih]
    by_cases h : ageDays now pr.createdAt > acc.1
    · rw [if_pos h, max_eq_right (le_of_lt h)]
    · rw [if_neg h, max_eq_left (not_lt.1 h)]

theorem oldestPair_fst (now : ℤ) (prs : List PR) :
    (oldestPair now prs).1 = (prs.map (fun pr => ageDays now pr.createdAt)).foldl max 0 := by
  unfold oldestPair
  exact oldestPair_fold_fst now prs (0, "")

theorem foldl_max_exchange :
    ∀ (l : List ℤ) (a b : ℤ), l.foldl max (max a b) = max a (l.foldl max b) := by
  intro l
  induction l with
  | nil => intro a b; rfl
  | cons x l ih =>
    intro a b
    rw [List.foldl_cons, List.foldl_cons, max_assoc, ih]

theorem le_foldl_max : ∀ (l : List ℤ) (a : ℤ), a ≤ l.foldl max a := by
  intro l
  induction l with
  | nil => intro a; exact le_refl a
  | cons x l ih =>
    intro a
    rw [List.foldl_cons]
    exact le_trans (le_max_left a x) (ih (max a x))

theorem mem_le_foldl_max :
    ∀ (l : List ℤ) (a x : ℤ), x ∈ l → x ≤ l.foldl max a := by
  intro l
  induction l with
  | nil => intro a x hx; exact absurd hx (List.not_mem_nil x)
  | cons y l ih =>
    intro a x hx
    rw [List.foldl_cons]
    rcases List.mem_cons.1 hx with rfl | hx'
    · exact le_trans (le_max_right a x) (le_foldl_max l (max a x))
    · exact ih (max a y) x hx'

theorem getRepoStats_avgExcl (verbose : Bool) (minAgeDays now : ℤ) (prs : List PR)
    (h : prs ≠ []) :
    (getRepoStats verbose minAgeDays now prs).avg_age_days_excluding_oldest =
      if 1 < (prs.map (fun pr => ageDays now pr.createdAt)).length then
        if (prs.map (fun pr => ageDays now pr.createdAt)).filter
              (fun a => decide (a < (oldestPair now prs).1)) = [] then 0
        else
          intMean
            ((prs.map (fun pr => ageDays now pr.createdAt)).filter
              (fun a => decide (a < (oldestPair now prs).1)))
      else 0 := by
  unfold getRepoStats
  rw [if_neg h]

/-- C2 counterexample: with every request created in the future (ages
`[-1, -2]`), the running "oldest" tracker stays at its initial `0`, so the
code averages over the ages below `0` (`-3/2`) while the claim's "strictly
below the maximum age `-1`" subset averages to `-2`. -/
theorem avg_excluding_oldest_not_spec_on_future_ages :
    (getRepoStats false 0 0 [prFutureA, prFutureB]).avg_age_days_excluding_oldest ≠
      specAvgAgeExcludingOldest
        ([prFutureA, prFutureB].map (fun pr => ageDays 0 pr.createdAt)) := by
  have h1 : ageDays 0 prFutureA.createdAt = -1 := by decide
  have h2 : ageDays 0 prFutureB.createdAt = -2 := by decide
  have hne : ([prFutureA, prFutureB] : List PR) ≠ [] := by decide
  have hL :
      (getRepoStats false 0 0 [prFutureA, prFutureB]).avg_age_days_excluding_oldest = -3 / 2 :=
    by
    simp only [getRepoStats, oldestPair, List.map, List.foldl, h1, h2, if_neg hne]
    norm_num [intMean, qmean, List.filter]
    decide
  have hR :
      specAvgAgeExcludingOldest ([prFutureA, prFutureB].map (fun pr => ageDays 0 pr.createdAt)) =
        -2 := by
    simp only [List.map, h1, h2]
    norm_num [specAvgAgeExcludingOldest, intMean, qmean, List.filter, List.foldl]
  rw [hL, hR]
  norm_num

/-- C2 (amended): whenever at least one request has a non-negative age (any
request not created in the future — in particular always in production data),
the exclusion average matches the spec: for more than one request it is the
mean over ages strictly below the maximum age (all ties excluded, `0` if that
subset is empty), and it is `0` for a single request.  When every age is
negative the tracked "oldest" stays `0` and the code filters against `0`
rather than the maximum. -/
theorem avg_age_excluding_oldest_spec :
    (∀ (verbose : Bool) (minAgeDays now : ℤ) (prs : List PR),
        1 < prs.length →
        (∃ pr ∈ prs, 0 ≤ ageDays now pr.createdAt) →
        (getRepoStats verbose minAgeDays now prs).avg_age_days_excluding_oldest =
          specAvgAgeExcludingOldest (prs.map (fun pr => ageDays now pr.createdAt))) ∧
      ∀ (verbose : Bool) (minAgeDays now : ℤ) (pr : PR),
        (getRepoStats verbose minAgeDays now [pr]).avg_age_days_excluding_oldest = 0 := by
  constructor
  · intro verbose minAgeDays now prs hlen hex
    obtain ⟨p, tl, rfl⟩ : ∃ p tl, prs = p :: tl := by
      cases prs with
      | nil => simp at hlen
      | cons p tl => exact ⟨p, tl, rfl⟩
    obtain ⟨q, rest, rfl⟩ : ∃ q rest, tl = q :: rest := by
      cases tl with
      | nil => simp at hlen
      | cons q rest => exact ⟨q, rest, rfl⟩
    have hM : (oldestPair now (p :: q :: rest)).1 =
        ((q :: rest).map (fun pr => ageDays now pr.createdAt)).foldl max
          (ageDays now p.createdAt) := by
      rw [oldestPair_fst, List.map_cons, List.foldl_cons, foldl_max_exchange]
      apply max_eq_right
      obtain ⟨pr, hpr, hpos⟩ := hex
      rcases List.mem_cons.1 hpr with rfl | hpr'
      · exact le_trans hpos (le_foldl_max _ _)
      · exact le_trans hpos
          (mem_le_foldl_max _ _ _ (List.mem_map_of_mem (fun pr => ageDays now pr.createdAt) hpr'))
    rw [getRepoStats_avgExcl _ _ _ _ (by simp)]
    rw [if_pos (by simp)]
    rw [hM]
    simp only [List.map_cons]
    conv_rhs => rw [specAvgAgeExcludingOldest]
    rw [if_neg
      (by
        simp :
        ¬(ageDays now q.createdAt :: rest.map (fun pr => ageDays now pr.createdAt)) = [])]
  · intro verbose minAgeDays now pr
    rw [getRepoStats_avgExcl _ _ _ _ (by simp)]
    rw [if_neg (by simp)]

/-- C2 witness: ages `[5, 2]` (the spec's own example) give an
excluding-oldest average of `2`. -/
theorem avg_age_excluding_oldest_spec_witness :
    (getRepoStats false 0 432000 [prAge5, prAge2]).avg_age_days_excluding_oldest = 2 := by
  have h :=
    avg_age_excluding_oldest_spec.1 false 0 432000 [prAge5, prAge2] (by decide)
      ⟨prAge5, by decide, by decide⟩
  rw [h]
  have h5 : ageDays 432000 prAge5.createdAt = 5 := by decide
  have h2 : ageDays 432000 prAge2.createdAt = 2 := by decide
  simp only [List.map, h5, h2]
  norm_num [specAvgAgeExcludingOldest, intMean, qmean, List.filter, List.foldl]

end PRReports
